import Mathlib

/-!
Verification of the retrieval-and-ranking orchestration pipeline of the
rag-with-eval repository.  Definitions are shallow embeddings of the Python
source under src/: the query analyzer (src/app/query_analyzer.py), the
retrieval orchestrator (src/app/retriever.py), the response models
(src/app/models.py), the cross-encoder reranker normalization
(src/backend/app/reranker.py) and the evaluation engine
(src/backend/app/evaluations.py).  Machine floats are modelled by rationals
(all constants in the source are exactly representable); reals are used for
the logistic normalization.
-/

/-- Substring containment on character lists: does `pat` occur as a contiguous
substring of `hay`?  Models the Python expression `pat in hay` on strings. -/
def listContainsSub : List Char → List Char → Bool
  | [], pat => pat.isEmpty
  | c :: t, pat => pat.isPrefixOf (c :: t) || listContainsSub t pat

/-- Substring containment on strings, the embedding of Python `kw in hay`. -/
def containsStr (hay kw : String) : Bool :=
  listContainsSub hay.toList kw.toList

/-- Does the (already lower-cased) question contain any of the keywords?
Models `any(keyword in question_lower for keyword in KEYWORDS)`. -/
def hasAnyKeyword (kws : List String) (questionLower : String) : Bool :=
  kws.any (fun k => containsStr questionLower k)

namespace QueryAnalyzer

/-- The user-intent keyword set of QueryAnalyzer
(src/app/query_analyzer.py:14-18, `USER_SPECIFIC_KEYWORDS`). -/
def USER_SPECIFIC_KEYWORDS : List String :=
  ["summarize", "summarise", "messages", "said", "say", "request", "requests",
   "asked", "ask", "visited", "visit", "places", "travel", "mentioned", "mention",
   "talked about", "discussed", "spoke", "shared", "commented"]

/-- Factual keyword set (src/app/query_analyzer.py:20-23). -/
def FACTUAL_KEYWORDS : List String :=
  ["how many", "how much", "count", "number", "total", "when", "where",
   "what time", "which", "list", "name"]

/-- Comparison keyword set (src/app/query_analyzer.py:25-28). -/
def COMPARISON_KEYWORDS : List String :=
  ["compare", "contrast", "difference", "similar", "unlike", "versus", "vs",
   "between", "both", "either", "rather than", "instead of"]

/-- Embedding of `QueryAnalyzer._determine_query_type`
(src/app/query_analyzer.py:74-89).  The argument `questionLower` is the
lower-cased question, as passed by `analyze_query`. -/
def determineQueryType (questionLower : String) (mentionedUsers : List String)
    (sourcesFromUser : Bool) : String :=
  if 1 < mentionedUsers.length then "multi_user"
  else if mentionedUsers.length = 1 ∧ sourcesFromUser = true then "user_specific"
  else if hasAnyKeyword COMPARISON_KEYWORDS questionLower = true then "comparison"
  else if hasAnyKeyword FACTUAL_KEYWORDS questionLower = true then "factual"
  else if hasAnyKeyword USER_SPECIFIC_KEYWORDS questionLower = true then "user_specific"
  else "general"

/-- Factor 1 of `calculate_confidence_score`: bucketed step function on the
number of sources (src/app/query_analyzer.py:144-153). -/
def sourceCountFactor (numSources : ℤ) : ℚ :=
  if 10 ≤ numSources then 1
  else if 5 ≤ numSources then 4/5
  else if 3 ≤ numSources then 3/5
  else if 2 ≤ numSources then 2/5
  else 1/5

/-- Factor 3 of `calculate_confidence_score`: query-type specificity
(src/app/query_analyzer.py:163-172). -/
def querySpecificityFactor (queryType : String) (sourcesFromSpecificUser : Bool) : ℚ :=
  if queryType = "user_specific" ∧ sourcesFromSpecificUser = true then 19/20
  else if queryType = "user_specific" then 7/10
  else if queryType = "factual" then 3/4
  else if queryType = "comparison" then 4/5
  else 3/5

/-- Factor 4 of `calculate_confidence_score`: source consistency
(src/app/query_analyzer.py:177-179). -/
def consistencyFactor (numSources : ℤ) : ℚ :=
  if numSources < 2 then 2/5 else 4/5

/-- Embedding of `QueryAnalyzer.calculate_confidence_score`
(src/app/query_analyzer.py:121-188).  Returns the clamped confidence together
with the factor breakdown, in the insertion order of the Python dict. -/
def calculateConfidenceScore (numSources : ℤ) (avgRerankerScore : ℚ)
    (queryType : String) (sourcesFromSpecificUser : Bool) :
    ℚ × List (String × ℚ) :=
  let factors : List (String × ℚ) :=
    [("source_count", sourceCountFactor numSources * (3/10)),
     ("reranker_quality", min avgRerankerScore 1 * (3/10)),
     ("query_specificity",
        querySpecificityFactor queryType sourcesFromSpecificUser * (1/5)),
     ("consistency", consistencyFactor numSources * (1/5))]
  let confidence := (factors.map Prod.snd).sum
  (min (max confidence 0) 1, factors)

end QueryAnalyzer

/-- The user-intent keyword list hard-coded in the orchestrator
(src/app/retriever.py:173, `user_specific_keywords`). -/
def retrieverUserSpecificKeywords : List String :=
  ["summarize", "summarise", "messages", "said", "say", "request", "requests",
   "asked", "ask", "visited", "visit", "places", "travel"]

/-- Embedding of `is_user_specific_query` (src/app/retriever.py:174): does the
lower-cased question contain a keyword of the orchestrator's list? -/
def isUserSpecificQuery (queryLower : String) : Bool :=
  hasAnyKeyword retrieverUserSpecificKeywords queryLower

/-- The field names of the response model `AnswerResponse`
(src/app/models.py:60-68), in declaration order. -/
def answerResponseFields : List String :=
  ["answer", "sources", "evaluations", "latency_ms", "model_used", "token_usage"]

/-- The keyword-argument names with which `QARetriever.answer_question` builds
the `AnswerResponse` (src/app/retriever.py:301-308), in call order. -/
def answerQuestionResponseArgs : List String :=
  ["answer", "sources", "evaluations", "latency_ms", "model_used", "token_usage"]

/-- C5: query classification evaluates its rules in strict priority order:
at least 2 mentioned users always give multi_user; exactly 1 mentioned user
with user-filtered retrieval gives user_specific; otherwise comparison
keywords are checked before factual keywords, factual before user-intent,
and a question matching no rule classifies as general. -/
theorem query_type_priority_spec (q : String) (mu : List String) (f : Bool) :
    (2 ≤ mu.length → QueryAnalyzer.determineQueryType q mu f = "multi_user") ∧
    (mu.length = 1 → f = true →
        QueryAnalyzer.determineQueryType q mu f = "user_specific") ∧
    (mu.length ≤ 1 → (f = true → mu.length = 0) →
      ((hasAnyKeyword QueryAnalyzer.COMPARISON_KEYWORDS q = true →
          QueryAnalyzer.determineQueryType q mu f = "comparison") ∧
       (hasAnyKeyword QueryAnalyzer.COMPARISON_KEYWORDS q = false →
        hasAnyKeyword QueryAnalyzer.FACTUAL_KEYWORDS q = true →
          QueryAnalyzer.determineQueryType q mu f = "factual") ∧
       (hasAnyKeyword QueryAnalyzer.COMPARISON_KEYWORDS q = false →
        hasAnyKeyword QueryAnalyzer.FACTUAL_KEYWORDS q = false →
        hasAnyKeyword QueryAnalyzer.USER_SPECIFIC_KEYWORDS q = true →
          QueryAnalyzer.determineQueryType q mu f = "user_specific") ∧
       (hasAnyKeyword QueryAnalyzer.COMPARISON_KEYWORDS q = false →
        hasAnyKeyword QueryAnalyzer.FACTUAL_KEYWORDS q = false →
        hasAnyKeyword QueryAnalyzer.USER_SPECIFIC_KEYWORDS q = false →
          QueryAnalyzer.determineQueryType q mu f = "general"))) := by
  refine ⟨?_, ?_, ?_⟩
  · intro h
    unfold QueryAnalyzer.determineQueryType
    rw [if_pos (by omega)]
  · intro h1 h2
    unfold QueryAnalyzer.determineQueryType
    rw [if_neg (by omega), if_pos ⟨h1, h2⟩]
  · intro h1 h2
    have hn1 : ¬ (1 < mu.length) := by omega
    have hn2 : ¬ (mu.length = 1 ∧ f = true) := by
      rintro ⟨ha, hb⟩
      have := h2 hb
      omega
    refine ⟨?_, ?_, ?_, ?_⟩
    · intro hc
      unfold QueryAnalyzer.determineQueryType
      rw [if_neg hn1, if_neg hn2, if_pos hc]
    · intro hc hf
      unfold QueryAnalyzer.determineQueryType
      rw [if_neg hn1, if_neg hn2, if_neg (by simp [hc]), if_pos hf]
    · intro hc hf hu
      unfold QueryAnalyzer.determineQueryType
      rw [if_neg hn1, if_neg hn2, if_neg (by simp [hc]), if_neg (by simp [hf]),
        if_pos hu]
    · intro hc hf hu
      unfold QueryAnalyzer.determineQueryType
      rw [if_neg hn1, if_neg hn2, if_neg (by simp [hc]), if_neg (by simp [hf]),
        if_neg (by simp [hu])]

/-- Witness for C5: the question "compare alice and bob" with two mentioned
users classifies as multi_user regardless of its comparison keyword. -/
theorem query_type_priority_spec_witness :
    QueryAnalyzer.determineQueryType "compare alice and bob" ["Alice", "Bob"]
      false = "multi_user" :=
  (query_type_priority_spec "compare alice and bob" ["Alice", "Bob"] false).1
    (by decide)

/-- C6: for every integer source count, rational average reranker score, query
type and user-filter flag, the confidence value lies in the closed unit
interval and equals the sum of the four weighted factor contributions
clamped to the unit interval. -/
theorem confidence_score_clamped_spec (n : ℤ) (avg : ℚ) (qt : String) (b : Bool) :
    0 ≤ (QueryAnalyzer.calculateConfidenceScore n avg qt b).1 ∧
    (QueryAnalyzer.calculateConfidenceScore n avg qt b).1 ≤ 1 ∧
    (QueryAnalyzer.calculateConfidenceScore n avg qt b).1 =
      min (max (QueryAnalyzer.sourceCountFactor n * (3/10) +
                min avg 1 * (3/10) +
                QueryAnalyzer.querySpecificityFactor qt b * (1/5) +
                QueryAnalyzer.consistencyFactor n * (1/5)) 0) 1 := by
  refine ⟨?_, ?_, ?_⟩
  · exact le_min (le_max_right _ 0) zero_le_one
  · exact min_le_right _ 1
  · unfold QueryAnalyzer.calculateConfidenceScore
    simp only [List.map_cons, List.map_nil, List.sum_cons, List.sum_nil]
    ring_nf

/-- Counterexample for C3: the keyword "mentioned" belongs to QueryAnalyzer's
user-intent set but not to the orchestrator's user-intent list, so the two
keyword sets are not equal. -/
theorem retriever_keywords_missing_mentioned :
    "mentioned" ∈ QueryAnalyzer.USER_SPECIFIC_KEYWORDS ∧
    "mentioned" ∉ retrieverUserSpecificKeywords := by
  decide

/-- C3 (amended): the orchestrator's user-intent keyword list is a proper
subset of QueryAnalyzer's user-intent set; the seven keywords mentioned,
mention, talked about, discussed, spoke, shared and commented belong only to
QueryAnalyzer's set, and every orchestrator keyword is in QueryAnalyzer's set. -/
theorem retriever_keywords_proper_subset :
    (retrieverUserSpecificKeywords.all
        (fun k => k ∈ QueryAnalyzer.USER_SPECIFIC_KEYWORDS) = true) ∧
    QueryAnalyzer.USER_SPECIFIC_KEYWORDS.filter
        (fun k => k ∉ retrieverUserSpecificKeywords) =
      ["mentioned", "mention", "talked about", "discussed", "spoke", "shared",
       "commented"] := by
  decide

/-- Counterexample for C1: the response model `AnswerResponse` of
src/app/models.py has no confidence field at all, so the returned answer
result cannot contain a confidence value. -/
theorem answer_response_has_no_confidence_field :
    "confidence" ∉ answerResponseFields := by
  decide

/-- C1 (amended): the orchestrator does not attach a confidence value to the
response: `answer_question` constructs the `AnswerResponse` with exactly the
declared fields answer, sources, evaluations, latency_ms, model_used and
token_usage, and no confidence field exists among them. -/
theorem answer_response_fields_spec :
    answerQuestionResponseArgs = answerResponseFields ∧
    answerResponseFields =
      ["answer", "sources", "evaluations", "latency_ms", "model_used",
       "token_usage"] ∧
    "confidence" ∉ answerResponseFields := by
  refine ⟨rfl, rfl, ?_⟩
  decide

/-- A single evaluation score, embedding the model `EvaluationScore`
(src/backend/app/models.py): metric name, score and pass flag. -/
structure EvalScoreQ where
  name : String
  score : ℚ
  passed : Bool
deriving DecidableEq, Repr

/-- Complete evaluation results, embedding `EvaluationResults`
(src/backend/app/models.py): the five scores, the average and the
conjunction of the pass flags. -/
structure EvaluationResultsQ where
  evaluations : List EvalScoreQ
  averageScore : ℚ
  allPassed : Bool
deriving DecidableEq, Repr

/-- Builds one judged metric score from a parsed score: the pass flag is the
comparison of the score against the metric's own threshold, as each
`_evaluate_*` method of src/backend/app/evaluations.py computes
`passed = score >= threshold`. -/
def mkJudgedScore (name : String) (threshold : ℚ) (score : ℚ) : EvalScoreQ :=
  ⟨name, score, decide (threshold ≤ score)⟩

/-- The score produced by `_parse_evaluation_response`
(src/backend/app/evaluations.py:329-384): a recognized numeric score is
clamped to the unit interval; when no score is recognized (or the parse
itself raises), the default score is 1/2. -/
def parseEvaluationScore (parsed : Option ℚ) : ℚ :=
  match parsed with
  | some s => min 1 (max 0 s)
  | none => 1/2

/-- One judge-backed metric of the evaluation engine: the `Except` input
models the external judge call (`llm_service.raw_call`) inside the metric's
try block, the `Option` its parse outcome.  An exception yields score 0 with
`passed = False` (the except branch of each `_evaluate_*` method); a
completed call scores via the tolerant parse and thresholds the result. -/
def evalMetric (name : String) (threshold : ℚ)
    (judge : Except String (Option ℚ)) : EvalScoreQ :=
  match judge with
  | Except.error _ => ⟨name, 0, false⟩
  | Except.ok parsed => mkJudgedScore name threshold (parseEvaluationScore parsed)

/-- Apostrophe character, kept out of string literals. -/
def aposChar : Char := Char.ofNat 39

/-- The disclaimer substring "don~t know" (with an apostrophe) tested by
`_evaluate_answer_completeness`. -/
def dontKnowStr : String := "don" ++ String.singleton aposChar ++ "t know"

/-- The disclaimer substring "don~t have" (with an apostrophe) tested by
`_evaluate_answer_completeness`. -/
def dontHaveStr : String := "don" ++ String.singleton aposChar ++ "t have"

/-- Word splitting on whitespace runs, the embedding of Python `str.split()`
with no separator argument. -/
def splitWsAux : List Char → List Char → List (List Char)
  | [], [] => []
  | [], cur => [cur.reverse]
  | c :: t, cur =>
      if c.isWhitespace then
        if cur.isEmpty then splitWsAux t [] else cur.reverse :: splitWsAux t []
      else splitWsAux t (c :: cur)

/-- Number of whitespace-separated words of a string (Python `len(s.split())`). -/
def wordCount (s : String) : ℕ := (splitWsAux s.toList []).length

/-- Embedding of `_evaluate_answer_completeness`
(src/backend/app/evaluations.py:297-327): the only metric with no external
call.  Empty answer scores 0, a disclaimer scores 3/10, a short answer 3/5,
anything else 9/10; the pass threshold is 7/10. -/
def evalAnswerCompleteness (answer : String) : EvalScoreQ :=
  let score : ℚ :=
    if answer.trim = "" then 0
    else if containsStr answer.toLower dontKnowStr ||
            containsStr answer.toLower dontHaveStr then 3/10
    else if wordCount answer < 5 then 3/5
    else 9/10
  ⟨"answer_completeness", score, decide ((7 : ℚ)/10 ≤ score)⟩

/-- The aggregation step of `EvaluationEngine.evaluate`
(src/backend/app/evaluations.py:105-116): the average of the scores and the
conjunction of the pass flags. -/
def aggregateEvaluations (es : List EvalScoreQ) : ℚ × Bool :=
  ((es.map EvalScoreQ.score).sum / es.length, es.all EvalScoreQ.passed)

/-- Embedding of `EvaluationEngine.evaluate`
(src/backend/app/evaluations.py:55-127): runs the four judge-backed metrics
with their thresholds 7/10, 4/5, 7/10 and 9/10, the completeness heuristic,
and aggregates. -/
def engineEvaluate (j1 j2 j3 j4 : Except String (Option ℚ)) (answer : String) :
    EvaluationResultsQ :=
  let es := [evalMetric "answer_relevance" (7/10) j1,
             evalMetric "groundedness" (4/5) j2,
             evalMetric "context_relevance" (7/10) j3,
             evalMetric "entity_accuracy" (9/10) j4,
             evalAnswerCompleteness answer]
  let agg := aggregateEvaluations es
  ⟨es, agg.1, agg.2⟩

/-- C8: the evaluation aggregate of the five metric scores has average equal
to their arithmetic mean and all_passed equal to the conjunction of the five
per-metric pass flags; five scores of 1 give average 1 with all_passed true,
and replacing the entity-accuracy score by any value below its own 9/10
threshold makes all_passed false even though the average stays at or above
4/5 whenever the score is nonnegative. -/
theorem evaluation_aggregate_spec (a b c d e : ℚ) :
    (aggregateEvaluations
        [mkJudgedScore "answer_relevance" (7/10) a,
         mkJudgedScore "groundedness" (4/5) b,
         mkJudgedScore "context_relevance" (7/10) c,
         mkJudgedScore "entity_accuracy" (9/10) d,
         mkJudgedScore "answer_completeness" (7/10) e]).1 =
      (a + b + c + d + e) / 5 ∧
    (aggregateEvaluations
        [mkJudgedScore "answer_relevance" (7/10) a,
         mkJudgedScore "groundedness" (4/5) b,
         mkJudgedScore "context_relevance" (7/10) c,
         mkJudgedScore "entity_accuracy" (9/10) d,
         mkJudgedScore "answer_completeness" (7/10) e]).2 =
      (decide ((7 : ℚ)/10 ≤ a) && (decide ((4 : ℚ)/5 ≤ b) &&
        (decide ((7 : ℚ)/10 ≤ c) && (decide ((9 : ℚ)/10 ≤ d) &&
          decide ((7 : ℚ)/10 ≤ e))))) ∧
    ((aggregateEvaluations
        [mkJudgedScore "answer_relevance" (7/10) 1,
         mkJudgedScore "groundedness" (4/5) 1,
         mkJudgedScore "context_relevance" (7/10) 1,
         mkJudgedScore "entity_accuracy" (9/10) 1,
         mkJudgedScore "answer_completeness" (7/10) 1]).1 = 1 ∧
     (aggregateEvaluations
        [mkJudgedScore "answer_relevance" (7/10) 1,
         mkJudgedScore "groundedness" (4/5) 1,
         mkJudgedScore "context_relevance" (7/10) 1,
         mkJudgedScore "entity_accuracy" (9/10) 1,
         mkJudgedScore "answer_completeness" (7/10) 1]).2 = true) ∧
    (d < 9/10 →
      (aggregateEvaluations
        [mkJudgedScore "answer_relevance" (7/10) 1,
         mkJudgedScore "groundedness" (4/5) 1,
         mkJudgedScore "context_relevance" (7/10) 1,
         mkJudgedScore "entity_accuracy" (9/10) d,
         mkJudgedScore "answer_completeness" (7/10) 1]).2 = false) ∧
    (0 ≤ d →
      4/5 ≤ (aggregateEvaluations
        [mkJudgedScore "answer_relevance" (7/10) 1,
         mkJudgedScore "groundedness" (4/5) 1,
         mkJudgedScore "context_relevance" (7/10) 1,
         mkJudgedScore "entity_accuracy" (9/10) d,
         mkJudgedScore "answer_completeness" (7/10) 1]).1) := by
  refine ⟨?_, ?_, ⟨?_, ?_⟩, ?_, ?_⟩
  · simp [aggregateEvaluations, mkJudgedScore]
    ring
  · simp [aggregateEvaluations, mkJudgedScore]
  · simp [aggregateEvaluations, mkJudgedScore]
    norm_num
  · simp [aggregateEvaluations, mkJudgedScore]
    norm_num
  · intro hd
    have hfalse : decide ((9 : ℚ)/10 ≤ d) = false :=
      decide_eq_false (not_le.mpr hd)
    simp [aggregateEvaluations, mkJudgedScore, hfalse]
  · intro hd
    have h5 : (aggregateEvaluations
        [mkJudgedScore "answer_relevance" (7/10) 1,
         mkJudgedScore "groundedness" (4/5) 1,
         mkJudgedScore "context_relevance" (7/10) 1,
         mkJudgedScore "entity_accuracy" (9/10) d,
         mkJudgedScore "answer_completeness" (7/10) 1]).1 = (4 + d) / 5 := by
      simp [aggregateEvaluations, mkJudgedScore]
      ring
    rw [h5]
    linarith

/-- Witness for C8: replacing the entity-accuracy score by 17/20 (below its
9/10 threshold, all other scores 1) makes all_passed false while the average
stays at or above 4/5. -/
theorem evaluation_aggregate_spec_witness :
    (aggregateEvaluations
        [mkJudgedScore "answer_relevance" (7/10) 1,
         mkJudgedScore "groundedness" (4/5) 1,
         mkJudgedScore "context_relevance" (7/10) 1,
         mkJudgedScore "entity_accuracy" (9/10) (17/20),
         mkJudgedScore "answer_completeness" (7/10) 1]).2 = false ∧
    4/5 ≤ (aggregateEvaluations
        [mkJudgedScore "answer_relevance" (7/10) 1,
         mkJudgedScore "groundedness" (4/5) 1,
         mkJudgedScore "context_relevance" (7/10) 1,
         mkJudgedScore "entity_accuracy" (9/10) (17/20),
         mkJudgedScore "answer_completeness" (7/10) 1]).1 :=
  ⟨(evaluation_aggregate_spec 1 1 1 (17/20) 1).2.2.2.1 (by norm_num),
   (evaluation_aggregate_spec 1 1 1 (17/20) 1).2.2.2.2 (by norm_num)⟩

/-- C10: when the external judge call of any single metric raises, the
evaluation run still completes with all five metric scores, the failed
metric recorded with score 0 and passed false, every other metric computed
from its own inputs only; a parse failure instead yields the default score
1/2, which differs from the exception score 0. -/
theorem judge_failure_degradation_spec (j1 j2 j3 j4 : Except String (Option ℚ))
    (ans : String) (n : String) (thr : ℚ) (msg : String) :
    (engineEvaluate j1 j2 j3 j4 ans).evaluations =
      [evalMetric "answer_relevance" (7/10) j1,
       evalMetric "groundedness" (4/5) j2,
       evalMetric "context_relevance" (7/10) j3,
       evalMetric "entity_accuracy" (9/10) j4,
       evalAnswerCompleteness ans] ∧
    (engineEvaluate j1 j2 j3 j4 ans).evaluations.length = 5 ∧
    evalMetric n thr (Except.error msg) = ⟨n, 0, false⟩ ∧
    (evalMetric n thr (Except.ok none)).score = 1/2 ∧
    (evalMetric n thr (Except.ok none)).score ≠
      (evalMetric n thr (Except.error msg)).score := by
  refine ⟨rfl, rfl, rfl, rfl, ?_⟩
  simp [evalMetric, mkJudgedScore, parseEvaluationScore]

/-- Staged embedding of `QARetriever.answer_question`
(src/app/retriever.py:85-318) for failure semantics: the outer try block
sequences embedding, retrieval, reranking and generation, each of which may
raise (modelled by `Except`); the outer except re-raises.  Only the optional
evaluation stage is wrapped in an inner try whose failure leaves the
evaluations component empty.  The result pairs the generated answer with the
optional evaluation results. -/
def runPipeline {V C A E : Type} (embedQuestion : Except String V)
    (searchStage : V → Except String (List C))
    (rerankStage : List C → Except String (List C))
    (generateStage : List C → Except String A)
    (includeEvaluations : Bool)
    (evalStage : A → Except String E) : Except String (A × Option E) :=
  match embedQuestion with
  | Except.error e => Except.error e
  | Except.ok v =>
    match searchStage v with
    | Except.error e => Except.error e
    | Except.ok cs =>
      match rerankStage cs with
      | Except.error e => Except.error e
      | Except.ok rs =>
        match generateStage rs with
        | Except.error e => Except.error e
        | Except.ok ans =>
          let evaluations : Option E :=
            if includeEvaluations then
              match evalStage ans with
              | Except.ok r => some r
              | Except.error _ => none
            else none
          Except.ok (ans, evaluations)

/-- C9: a failure of the evaluation stage after the answer has been generated
still produces a complete result with the evaluations component omitted and
the answer unaffected, whereas a failure of embedding, retrieval, reranking
or generation aborts the whole request with no partial answer. -/
theorem pipeline_failure_semantics_spec {V C A E : Type}
    (embedQuestion : Except String V) (searchStage : V → Except String (List C))
    (rerankStage : List C → Except String (List C))
    (generateStage : List C → Except String A)
    (evalStage : A → Except String E) (b : Bool)
    (v : V) (cs rs : List C) (ans : A) (msg : String) :
    (embedQuestion = Except.error msg →
        runPipeline embedQuestion searchStage rerankStage generateStage b
          evalStage = Except.error msg) ∧
    (embedQuestion = Except.ok v → searchStage v = Except.error msg →
        runPipeline embedQuestion searchStage rerankStage generateStage b
          evalStage = Except.error msg) ∧
    (embedQuestion = Except.ok v → searchStage v = Except.ok cs →
     rerankStage cs = Except.error msg →
        runPipeline embedQuestion searchStage rerankStage generateStage b
          evalStage = Except.error msg) ∧
    (embedQuestion = Except.ok v → searchStage v = Except.ok cs →
     rerankStage cs = Except.ok rs → generateStage rs = Except.error msg →
        runPipeline embedQuestion searchStage rerankStage generateStage b
          evalStage = Except.error msg) ∧
    (embedQuestion = Except.ok v → searchStage v = Except.ok cs →
     rerankStage cs = Except.ok rs → generateStage rs = Except.ok ans →
     evalStage ans = Except.error msg →
        runPipeline embedQuestion searchStage rerankStage generateStage true
          evalStage = Except.ok (ans, none)) := by
  refine ⟨?_, ?_, ?_, ?_, ?_⟩
  · intro h1
    simp [runPipeline, h1]
  · intro h1 h2
    simp [runPipeline, h1, h2]
  · intro h1 h2 h3
    simp [runPipeline, h1, h2, h3]
  · intro h1 h2 h3 h4
    simp [runPipeline, h1, h2, h3, h4]
  · intro h1 h2 h3 h4 h5
    simp [runPipeline, h1, h2, h3, h4, h5]

/-- Witness for C9: a concrete pipeline whose evaluation stage fails returns
the generated answer with no evaluations, and the same pipeline with a
failing generation stage aborts. -/
theorem pipeline_failure_semantics_spec_witness :
    runPipeline (V := ℕ) (C := ℕ) (A := ℕ) (E := ℕ) (Except.ok 0)
      (fun _ => Except.ok [1, 2]) (fun cs => Except.ok cs)
      (fun _ => Except.ok 42) true (fun _ => Except.error "judge down") =
      Except.ok (42, none) ∧
    runPipeline (V := ℕ) (C := ℕ) (A := ℕ) (E := ℕ) (Except.ok 0)
      (fun _ => Except.ok [1, 2]) (fun cs => Except.ok cs)
      (fun _ => Except.error "generator down") true
      (fun _ => Except.error "judge down") =
      Except.error "generator down" :=
  ⟨(pipeline_failure_semantics_spec (Except.ok 0) (fun _ => Except.ok [1, 2])
      (fun cs => Except.ok cs) (fun _ => Except.ok 42)
      (fun _ => Except.error "judge down") true 0 [1, 2] [1, 2] 42
      "judge down").2.2.2.2 rfl rfl rfl rfl rfl,
   (pipeline_failure_semantics_spec (Except.ok 0) (fun _ => Except.ok [1, 2])
      (fun cs => Except.ok cs) (fun _ => Except.error "generator down")
      (fun _ => Except.error "judge down") true 0 [1, 2] [1, 2] 42
      "generator down").2.2.2.1 rfl rfl rfl rfl⟩

/-- Embedding of the sigmoid normalization of `CrossEncoderReranker.rerank`
(src/backend/app/reranker.py:82): a raw cross-encoder score is mapped to
1 / (1 + exp(-raw)). -/
noncomputable def sigmoidNormalize (raw : ℝ) : ℝ :=
  1 / (1 + Real.exp (-raw))

/-- C7: the reranker normalization is the logistic function: raw score 0 maps
to exactly 1/2, every normalized score lies strictly between 0 and 1, the map
is strictly monotonic, and comparisons of normalized scores agree with
comparisons of raw scores, so sorting by normalized score preserves the
raw-score order. -/
theorem logistic_normalization_spec :
    sigmoidNormalize 0 = 1/2 ∧
    (∀ x : ℝ, 0 < sigmoidNormalize x ∧ sigmoidNormalize x < 1) ∧
    (∀ a b : ℝ, b < a → sigmoidNormalize b < sigmoidNormalize a) ∧
    (∀ a b : ℝ, sigmoidNormalize a ≤ sigmoidNormalize b ↔ a ≤ b) := by
  have hpos : ∀ x : ℝ, 0 < 1 + Real.exp (-x) := by
    intro x
    have := Real.exp_pos (-x)
    linarith
  have hmono : ∀ a b : ℝ, b < a → sigmoidNormalize b < sigmoidNormalize a := by
    intro a b hba
    unfold sigmoidNormalize
    have hexp : Real.exp (-a) < Real.exp (-b) := Real.exp_lt_exp.mpr (by linarith)
    have hlt : 1 + Real.exp (-a) < 1 + Real.exp (-b) := by linarith
    exact one_div_lt_one_div_of_lt (hpos a) hlt
  have hsm : StrictMono sigmoidNormalize := fun a b h => hmono b a h
  refine ⟨?_, ?_, hmono, ?_⟩
  · unfold sigmoidNormalize
    rw [neg_zero, Real.exp_zero]
    norm_num
  · intro x
    constructor
    · exact div_pos one_pos (hpos x)
    · unfold sigmoidNormalize
      rw [div_lt_one (hpos x)]
      have := Real.exp_pos (-x)
      linarith
  · intro a b
    exact hsm.le_iff_le

/-- Witness for C7: the normalization of raw score 0 is 1/2 and is strictly
below the normalization of raw score 1. -/
theorem logistic_normalization_spec_witness :
    sigmoidNormalize 0 = 1/2 ∧ sigmoidNormalize 0 < sigmoidNormalize 1 :=
  ⟨logistic_normalization_spec.1,
   logistic_normalization_spec.2.2.1 1 0 zero_lt_one⟩

section SortDesc

variable {α : Type} {β : Type} [LinearOrder β] (key : α → β)

/-- Insertion step of a stable descending sort by a key, the embedding of the
behaviour of Python `list.sort(key=..., reverse=True)` used at
src/app/retriever.py:152 and src/app/retriever.py:210: an element is placed
before the first element whose key is not larger. -/
def insertDesc (p : α) : List α → List α
  | [] => [p]
  | q :: t => if key q ≤ key p then p :: q :: t else q :: insertDesc p t

/-- Stable descending insertion sort by a key. -/
def sortDesc : List α → List α
  | [] => []
  | p :: t => insertDesc key p (sortDesc t)

theorem mem_insertDesc (p : α) (l : List α) (x : α) :
    x ∈ insertDesc key p l ↔ x = p ∨ x ∈ l := by
  induction l with
  | nil => simp [insertDesc]
  | cons q t ih =>
    by_cases h : key q ≤ key p
    · simp [insertDesc, h]
    · simp only [insertDesc, if_neg h, List.mem_cons, ih]
      tauto

theorem perm_insertDesc (p : α) (l : List α) :
    List.Perm (insertDesc key p l) (p :: l) := by
  induction l with
  | nil => simp [insertDesc]
  | cons q t ih =>
    by_cases h : key q ≤ key p
    · simp [insertDesc, h]
    · simp only [insertDesc, if_neg h]
      exact (ih.cons q).trans (List.Perm.swap p q t)

theorem perm_sortDesc (l : List α) : List.Perm (sortDesc key l) l := by
  induction l with
  | nil => simp [sortDesc]
  | cons p t ih =>
    exact (perm_insertDesc key p (sortDesc key t)).trans (ih.cons p)

theorem pairwise_insertDesc (p : α) (l : List α)
    (h : l.Pairwise (fun a b => key b ≤ key a)) :
    (insertDesc key p l).Pairwise (fun a b => key b ≤ key a) := by
  induction l with
  | nil => simp [insertDesc]
  | cons q t ih =>
    rcases List.pairwise_cons.mp h with ⟨hq, ht⟩
    by_cases hqp : key q ≤ key p
    · simp only [insertDesc, if_pos hqp]
      refine List.pairwise_cons.mpr ⟨?_, h⟩
      intro x hx
      rcases List.mem_cons.mp hx with rfl | hx
      · exact hqp
      · exact le_trans (hq x hx) hqp
    · simp only [insertDesc, if_neg hqp]
      refine List.pairwise_cons.mpr ⟨?_, ih ht⟩
      intro x hx
      rcases (mem_insertDesc key p t x).mp hx with rfl | hx
      · exact le_of_lt (lt_of_not_le hqp)
      · exact hq x hx

theorem pairwise_sortDesc (l : List α) :
    (sortDesc key l).Pairwise (fun a b => key b ≤ key a) := by
  induction l with
  | nil => simp [sortDesc]
  | cons p t ih => exact pairwise_insertDesc key p _ ih

theorem sortDesc_head_max (l : List α) (p : α) (t : List α)
    (h : sortDesc key l = p :: t) : ∀ x ∈ l, key x ≤ key p := by
  intro x hx
  have hmem : x ∈ sortDesc key l := ((perm_sortDesc key l).mem_iff).mpr hx
  rw [h] at hmem
  rcases List.mem_cons.mp hmem with rfl | hx2
  · exact le_refl _
  · have hp := pairwise_sortDesc key l
    rw [h] at hp
    exact (List.pairwise_cons.mp hp).1 x hx2

theorem sortDesc_eq_nil_iff (l : List α) : sortDesc key l = [] ↔ l = [] := by
  constructor
  · intro h
    have := (perm_sortDesc key l).length_eq
    rw [h] at this
    exact List.length_eq_zero.mp this.symm
  · intro h
    subst h
    rfl

end SortDesc

/-- The scan of the sorted similarity list (src/app/retriever.py:161-168):
names at or above the threshold are appended (skipping duplicates) and the
scan stops at the first name that falls below the threshold. -/
def scanAccept (thr : ℚ) : List (String × ℚ) → List String → List String
  | [], acc => acc
  | (n, s) :: rest, acc =>
      if thr ≤ s then
        scanAccept thr rest (if n ∈ acc then acc else acc ++ [n])
      else acc

/-- Embedding of the semantic mention detection of
`QARetriever.answer_question` (src/app/retriever.py:150-168): sort the
cached (name, similarity) pairs by similarity descending, set the threshold
to max(1/2, top - 1/5) from the top similarity, and scan. -/
def detectMentions (sims : List (String × ℚ)) : List String :=
  match sortDesc Prod.snd sims with
  | [] => []
  | p :: rest => scanAccept (max (1/2) (p.2 - 1/5)) (p :: rest) []

/-- The similarity profile of the worked example of the specification:
similarities 9/10, 3/4, 13/20 and 3/10. -/
def exampleSimilarities : List (String × ℚ) :=
  [("Alice", 9/10), ("Bob", 3/4), ("Carol", 13/20), ("Dan", 3/10)]

theorem scanAccept_eq (thr : ℚ) (l : List (String × ℚ)) (acc : List String)
    (hnd : (l.map Prod.fst).Nodup) (hdis : ∀ n ∈ acc, n ∉ l.map Prod.fst) :
    scanAccept thr l acc =
      acc ++ (l.takeWhile (fun p => decide (thr ≤ p.2))).map Prod.fst := by
  induction l generalizing acc with
  | nil => simp [scanAccept]
  | cons q t ih =>
    obtain ⟨n, s⟩ := q
    have hcons : (List.map Prod.fst ((n, s) :: t)).Nodup := hnd
    rw [List.map_cons, List.nodup_cons] at hcons
    by_cases h : thr ≤ s
    · have hn1 : n ∉ acc := fun hmem => hdis n hmem (by simp)
      have hdis2 : ∀ m ∈ acc ++ [n], m ∉ t.map Prod.fst := by
        intro m hm
        rcases List.mem_append.mp hm with hm | hm
        · intro hmt
          exact hdis m hm (by simp [hmt])
        · rw [List.mem_singleton] at hm
          subst hm
          exact hcons.1
      rw [scanAccept, if_pos h, if_neg hn1, ih (acc ++ [n]) hcons.2 hdis2]
      simp [List.takeWhile_cons, h]
    · rw [scanAccept, if_neg h]
      simp [List.takeWhile_cons, h]

theorem takeWhile_eq_filter_sorted (thr : ℚ) (l : List (String × ℚ))
    (h : l.Pairwise (fun a b => b.2 ≤ a.2)) :
    l.takeWhile (fun p => decide (thr ≤ p.2)) =
      l.filter (fun p => decide (thr ≤ p.2)) := by
  induction l with
  | nil => rfl
  | cons q t ih =>
    rcases List.pairwise_cons.mp h with ⟨hq, ht⟩
    by_cases hth : thr ≤ q.2
    · simp [List.takeWhile_cons, List.filter_cons, hth, ih ht]
    · have hnone : t.filter (fun p => decide (thr ≤ p.2)) = [] := by
        rw [List.filter_eq_nil_iff]
        intro a ha
        simp only [decide_eq_true_eq]
        intro hc
        exact hth (le_trans hc (hq a ha))
      simp [List.takeWhile_cons, List.filter_cons, hth, hnone]

theorem detectMentions_example :
    detectMentions exampleSimilarities = ["Alice", "Bob"] := by
  norm_num [detectMentions, sortDesc, insertDesc, scanAccept, exampleSimilarities]
  decide

theorem exampleSimilarities_top :
    (9 : ℚ)/10 ∈ List.map Prod.snd exampleSimilarities ∧
    ∀ s ∈ List.map Prod.snd exampleSimilarities, s ≤ 9/10 := by
  constructor
  · norm_num [exampleSimilarities]
  · intro s hs
    simp [exampleSimilarities] at hs
    rcases hs with rfl | rfl | rfl | rfl <;> norm_num

/-- C2: for every list of cached (name, similarity) pairs with distinct names
whose top similarity is `top`, mention detection returns exactly the names
whose similarity is at least max(1/2, top - 1/5), in descending-similarity
order with no duplicates; in particular, for similarities 9/10, 3/4, 13/20
and 3/10 the accepted mentions are exactly the names scoring 9/10 and 3/4. -/
theorem mention_detection_threshold_spec (sims : List (String × ℚ)) (top : ℚ)
    (hnd : (sims.map Prod.fst).Nodup)
    (htop : top ∈ sims.map Prod.snd ∧ ∀ s ∈ sims.map Prod.snd, s ≤ top) :
    (∃ ps : List (String × ℚ),
        detectMentions sims = ps.map Prod.fst ∧
        ps.Pairwise (fun a b => b.2 ≤ a.2) ∧
        (∀ x : String × ℚ, x ∈ ps ↔ x ∈ sims ∧ max (1/2) (top - 1/5) ≤ x.2)) ∧
    (detectMentions sims).Nodup ∧
    detectMentions exampleSimilarities = ["Alice", "Bob"] := by
  obtain ⟨htopmem, htopmax⟩ := htop
  have hne : sims ≠ [] := by
    rintro rfl
    simp at htopmem
  cases hsort : sortDesc Prod.snd sims with
  | nil => exact absurd ((sortDesc_eq_nil_iff Prod.snd sims).mp hsort) hne
  | cons q rest =>
    have hperm := perm_sortDesc (Prod.snd (α := String) (β := ℚ)) sims
    rw [hsort] at hperm
    have hqmem : q ∈ sims := hperm.mem_iff.mp (List.mem_cons_self q rest)
    have hqle : q.2 ≤ top := htopmax q.2 (List.mem_map_of_mem Prod.snd hqmem)
    have htople : top ≤ q.2 := by
      obtain ⟨x, hx, hxe⟩ := List.mem_map.mp htopmem
      rw [← hxe]
      exact sortDesc_head_max Prod.snd sims q rest hsort x hx
    have hqt : q.2 = top := le_antisymm hqle htople
    have hD : detectMentions sims =
        scanAccept (max (1/2) (q.2 - 1/5)) (q :: rest) [] := by
      unfold detectMentions
      rw [hsort]
    rw [hqt] at hD
    have hnds : ((q :: rest).map Prod.fst).Nodup :=
      ((hperm.map Prod.fst).nodup_iff).mpr hnd
    have hpw := pairwise_sortDesc (Prod.snd (α := String) (β := ℚ)) sims
    rw [hsort] at hpw
    have hscan : detectMentions sims =
        ((q :: rest).filter
            (fun x => decide (max (1/2) (top - 1/5) ≤ x.2))).map Prod.fst := by
      rw [hD, scanAccept_eq _ _ _ hnds (by simp),
        takeWhile_eq_filter_sorted _ _ hpw]
      simp
    refine ⟨⟨(q :: rest).filter
        (fun x => decide (max (1/2) (top - 1/5) ≤ x.2)), hscan, hpw.filter _, ?_⟩,
      ?_, detectMentions_example⟩
    · intro x
      rw [List.mem_filter, hperm.mem_iff, decide_eq_true_eq]
    · rw [hscan]
      exact ((List.filter_sublist _).map Prod.fst).nodup hnds

/-- Witness for C2: on the example similarity list the detected mentions are
exactly Alice (9/10) and Bob (3/4), without duplicates. -/
theorem mention_detection_threshold_spec_witness :
    detectMentions exampleSimilarities = ["Alice", "Bob"] ∧
    (detectMentions exampleSimilarities).Nodup :=
  ⟨(mention_detection_threshold_spec exampleSimilarities (9/10) (by decide)
      exampleSimilarities_top).2.2,
   (mention_detection_threshold_spec exampleSimilarities (9/10) (by decide)
      exampleSimilarities_top).2.1⟩

/-- A retrieved context reduced to the data the branching logic inspects:
the author name of the message (`ctx.message.user_name`) and its text. -/
structure RC where
  userName : String
  text : String
deriving DecidableEq, Repr

/-- The key order of a Python dict built by first-occurrence insertion,
as `user_counts` is built at src/app/retriever.py:116-119. -/
def firstUniq : List String → List String
  | [] => []
  | u :: t => u :: (firstUniq t).filter (fun v => v ≠ u)

/-- The (user, count) items of `user_counts` (src/app/retriever.py:116-119):
one pair per distinct user of the initial candidates, in first-occurrence
order, with the number of candidates authored by that user. -/
def userCountsPairs (users : List String) : List (String × ℕ) :=
  (firstUniq users).map (fun u => (u, users.count u))

/-- The dominant-user check of src/app/retriever.py:208-216: sort the
per-user counts descending, take the top user, and report it when its share
of the candidates strictly exceeds one half. -/
def dominantUser (users : List String) : Option String :=
  match sortDesc Prod.snd (userCountsPairs users) with
  | [] => none
  | p :: _ => if users.length < 2 * p.2 then some p.1 else none

/-- The four outcomes of step-4 branch selection in
`QARetriever.answer_question`. -/
inductive BranchDecision where
  | singleUser : String → BranchDecision
  | multiUser : List String → BranchDecision
  | dominant : String → BranchDecision
  | keepGeneral : BranchDecision
deriving DecidableEq, Repr

/-- Embedding of the step-4 branch selection (src/app/retriever.py:179-223):
detected mentions plus a user-intent keyword give the single- or multi-user
branch; otherwise a user-intent keyword with a nonempty candidate set gives
the dominant-user check; anything else keeps the general candidates. -/
def selectBranch (queryLower : String) (mentionedUsers : List String)
    (initialUsers : List String) : BranchDecision :=
  if mentionedUsers ≠ [] ∧ isUserSpecificQuery queryLower = true then
    match mentionedUsers with
    | [u] => BranchDecision.singleUser u
    | _ => BranchDecision.multiUser mentionedUsers
  else if initialUsers ≠ [] ∧ isUserSpecificQuery queryLower = true then
    match dominantUser initialUsers with
    | some u => BranchDecision.dominant u
    | none => BranchDecision.keepGeneral
  else BranchDecision.keepGeneral

/-- Resolution of a branch decision into the candidate set used from step 5
on: the single-user and dominant branches replace the candidates with the
exhaustive per-user retrieval, the multi-user branch concatenates the
per-user retrievals in mention order, and the general branch keeps the
step-2 candidates. -/
def resolveContexts (exhaustive : String → List RC) (initial : List RC) :
    BranchDecision → List RC
  | BranchDecision.singleUser u => exhaustive u
  | BranchDecision.multiUser us => (us.map exhaustive).flatten
  | BranchDecision.dominant u => exhaustive u
  | BranchDecision.keepGeneral => initial

/-- The candidate set after step 4 of `QARetriever.answer_question`, given
the exhaustive per-user retrieval as an oracle. -/
def pipelineContexts (exhaustive : String → List RC) (queryLower : String)
    (mentionedUsers : List String) (initial : List RC) : List RC :=
  resolveContexts exhaustive initial
    (selectBranch queryLower mentionedUsers (initial.map RC.userName))

theorem mem_firstUniq (l : List String) (v : String) :
    v ∈ firstUniq l ↔ v ∈ l := by
  induction l with
  | nil => simp [firstUniq]
  | cons u t ih =>
    by_cases hvu : v = u
    · subst hvu
      simp [firstUniq]
    · simp [firstUniq, List.mem_filter, ih, hvu]

theorem mem_userCountsPairs (users : List String) (x : String × ℕ) :
    x ∈ userCountsPairs users ↔ x.1 ∈ users ∧ x.2 = users.count x.1 := by
  unfold userCountsPairs
  rw [List.mem_map]
  constructor
  · rintro ⟨u, hu, rfl⟩
    exact ⟨(mem_firstUniq users u).mp hu, rfl⟩
  · rintro ⟨h1, h2⟩
    refine ⟨x.1, (mem_firstUniq users x.1).mpr h1, ?_⟩
    rw [← h2]

theorem count_add_count_le_length (l : List String) (u v : String)
    (h : u ≠ v) : l.count u + l.count v ≤ l.length := by
  induction l with
  | nil => simp
  | cons a t ih =>
    rw [List.length_cons]
    by_cases hau : a = u
    · subst hau
      rw [List.count_cons_self, List.count_cons_of_ne (Ne.symm h)]
      omega
    · by_cases hav : a = v
      · subst hav
        rw [List.count_cons_self, List.count_cons_of_ne (fun he => hau he.symm)]
        omega
      · rw [List.count_cons_of_ne (fun he => hau he.symm),
          List.count_cons_of_ne (fun he => hav he.symm)]
        omega

theorem dominantUser_nil (users : List String)
    (h : sortDesc Prod.snd (userCountsPairs users) = []) :
    dominantUser users = none := by
  unfold dominantUser
  rw [h]

theorem dominantUser_cons (users : List String) (p : String × ℕ)
    (rest : List (String × ℕ))
    (h : sortDesc Prod.snd (userCountsPairs users) = p :: rest) :
    dominantUser users = if users.length < 2 * p.2 then some p.1 else none := by
  unfold dominantUser
  rw [h]

/-- C4: with zero detected mentions, a user-intent keyword present and a
nonempty initial candidate set, the orchestrator replaces the candidate set
with the exhaustive retrieval of a user owning strictly more than half of
the initial candidates, and keeps the step-2 general candidate set unchanged
when no user exceeds half. -/
theorem dominant_user_fallback_spec (q : String) (initial : List RC)
    (exhaustive : String → List RC) (u : String)
    (hkw : isUserSpecificQuery q = true) :
    (initial.length < 2 * (initial.map RC.userName).count u →
        pipelineContexts exhaustive q [] initial = exhaustive u) ∧
    ((∀ v : String, 2 * (initial.map RC.userName).count v ≤ initial.length) →
        pipelineContexts exhaustive q [] initial = initial) := by
  have hm : ¬(([] : List String) ≠ [] ∧ isUserSpecificQuery q = true) := by
    simp
  have hlen : (initial.map RC.userName).length = initial.length :=
    List.length_map initial RC.userName
  constructor
  · intro hdom
    set users := initial.map RC.userName with husers
    have hcpos : 0 < users.count u := by
      rcases Nat.eq_zero_or_pos (users.count u) with h0 | h0
      · rw [h0] at hdom
        omega
      · exact h0
    have hune : users ≠ [] := by
      intro h0
      rw [h0] at hcpos
      simp at hcpos
    have humem : u ∈ users := List.count_pos_iff.mp hcpos
    have hpairs : (u, users.count u) ∈ userCountsPairs users :=
      (mem_userCountsPairs users (u, users.count u)).mpr ⟨humem, rfl⟩
    have hpne : userCountsPairs users ≠ [] := by
      intro h0
      rw [h0] at hpairs
      simp at hpairs
    have hsel : selectBranch q [] users = BranchDecision.dominant u := by
      unfold selectBranch
      rw [if_neg hm, if_pos ⟨hune, hkw⟩]
      cases hsort : sortDesc Prod.snd (userCountsPairs users) with
      | nil => exact absurd ((sortDesc_eq_nil_iff _ _).mp hsort) hpne
      | cons p rest =>
        have hperm := perm_sortDesc (Prod.snd (α := String) (β := ℕ))
          (userCountsPairs users)
        rw [hsort] at hperm
        have hpmem := (mem_userCountsPairs users p).mp
          (hperm.mem_iff.mp (List.mem_cons_self p rest))
        have hmaxu : users.count u ≤ p.2 :=
          sortDesc_head_max Prod.snd (userCountsPairs users) p rest hsort
            (u, users.count u) hpairs
        have hcond : users.length < 2 * p.2 := by
          rw [hlen]
          omega
        have hpu : p.1 = u := by
          by_contra hne2
          have hsum := count_add_count_le_length users p.1 u hne2
          rw [← hpmem.2] at hsum
          rw [hlen] at hcond
          omega
        rw [dominantUser_cons users p rest hsort, if_pos hcond, hpu]
    unfold pipelineContexts
    rw [← husers, hsel]
    rfl
  · intro hall
    set users := initial.map RC.userName with husers
    have hsel : selectBranch q [] users = BranchDecision.keepGeneral := by
      unfold selectBranch
      rw [if_neg hm]
      by_cases hune : users ≠ []
      · rw [if_pos ⟨hune, hkw⟩]
        cases hsort : sortDesc Prod.snd (userCountsPairs users) with
        | nil =>
          rw [dominantUser_nil users hsort]
        | cons p rest =>
          have hperm := perm_sortDesc (Prod.snd (α := String) (β := ℕ))
            (userCountsPairs users)
          rw [hsort] at hperm
          have hpmem := (mem_userCountsPairs users p).mp
            (hperm.mem_iff.mp (List.mem_cons_self p rest))
          have hle := hall p.1
          have hncond : ¬ (users.length < 2 * p.2) := by
            rw [hpmem.2, hlen]
            omega
          rw [dominantUser_cons users p rest hsort, if_neg hncond]
      · rw [if_neg (fun hc => hune hc.1)]
    unfold pipelineContexts
    rw [← husers, hsel]
    rfl

/-- The ten-candidate initial set of the worked example: Sophia authors six
of the ten candidates. -/
def exampleInitial : List RC :=
  [⟨"Sophia", "m1"⟩, ⟨"Sophia", "m2"⟩, ⟨"Liam", "m3"⟩, ⟨"Sophia", "m4"⟩,
   ⟨"Noah", "m5"⟩, ⟨"Sophia", "m6"⟩, ⟨"Emma", "m7"⟩, ⟨"Sophia", "m8"⟩,
   ⟨"Olivia", "m9"⟩, ⟨"Sophia", "m10"⟩]

/-- A concrete exhaustive-retrieval oracle for the witness. -/
def exampleExhaustive : String → List RC :=
  fun name => [⟨name, "their complete history"⟩]

/-- Witness for C4: ten initial candidates of which Sophia owns six, a
user-intent keyword and no explicit mentions trigger the exhaustive
retrieval for Sophia. -/
theorem dominant_user_fallback_spec_witness :
    pipelineContexts exampleExhaustive "summarize the travel plans" []
      exampleInitial = exampleExhaustive "Sophia" :=
  (dominant_user_fallback_spec "summarize the travel plans" exampleInitial
      exampleExhaustive "Sophia" (by decide)).1 (by decide)
